import Mathlib

/-!
Shallow embedding of the prompt-builder module `aipyapp/aipy/prompt.py`.

The module exposes five builder functions over string templates and
ordered dictionaries.  Ordered dictionaries are embedded as association
lists (`List (String × Value)`), preserving insertion order.  Ambient
inputs of the Python runtime (`platform.*`, `locale.getlocale()`,
`date.today()`, `os.environ`) are passed explicitly as parameters.
-/

namespace Aipy

/-- Values stored in the ordered records built by the module: strings,
lists (the results sequence), and nested ordered records. -/
inductive Value where
  | str : String → Value
  | list : List Value → Value
  | dict : List (String × Value) → Value

/-- Lookup of a key in an ordered record, first match wins. -/
def pyDictGet (d : List (String × Value)) (k : String) : Option Value :=
  (d.find? (fun p => p.fst == k)).map Prod.snd

/-- Embedding of the Python builtin `str.strip()`: remove leading and
trailing whitespace characters. -/
def pyStrip (s : String) : String :=
  String.mk (((s.data.dropWhile Char.isWhitespace).reverse.dropWhile Char.isWhitespace).reverse)

/-- Truthiness of an optional string in Python: `None` and the empty
string are falsy. -/
def pyTruthyOpt : Option String → Bool
  | none => false
  | some s => s != ""

/-- Embedding of the Python expression `user_prompt or default` on an
optional string: falsy values fall through to the default. -/
def pyOrElse : Option String → String → String
  | none, d => d
  | some s, d => if s == "" then d else s

/-- Embedding of `os.environ.get(k, d)` over an explicit environment. -/
def pyEnvGet (env : List (String × String)) (k d : String) : String :=
  ((env.find? (fun p => p.fst == k)).map Prod.snd).getD d

/-- Modelled from the spec: the tips collection type is defined outside
this module.  It exposes `role.detail` (here `role_detail`), a length
(`len(tips)`), and a string rendering (`str(tips)`, here the field
named by its Python spelling). -/
structure Tips where
  role_detail : String
  length : Nat
  str : String

/-- The AIPY_PROMPT template constant, verbatim from the source module. -/
def AIPY_PROMPT : String :=
  "\n\x23 输出内容格式规范\n输出内容必须采用结构化的 Markdown 格式，并符合以下规则：\n\n\x23\x23 多行代码块标记\n1. 代码块必须用一对HTML注释标记包围，格式如下：\n   - 代码开始：<!-- Block-Start: \x7b\"name\": \"代码块名称\", \"version\": 数字版本号如1/2/3, \"path\": \"该代码块的可选文件路径\"\x7d -->\n   - 代码本体：用 Markdown 代码块包裹（如 \x60\x60\x60python 或 \x60\x60\x60html 等)。\n   - 代码结束：<!-- Block-End: \x7b \"name\": 和Block-Start中的name一致 \x7d -->\n\n2. 多个代码块可以使用同一个name，但版本必须不同。版本最高的代码块会被认为是最新的有效版本。\n\n3. \x60path\x60 为代码块需要保存为的本地文件路径可以包含目录, 如果是相对路径则默认为相对当前目录或者用户指定目录.\n\n4. 同一个输出消息里可以定义多个代码块。\n\n5. **正确示例：**\n<!-- Block-Start: \x7b\"name\": \"abc123\", \"version\": 1, \"path\": \"main.py\"\x7d -->\n\x60\x60\x60python\nprint(\"hello world\")\n\x60\x60\x60\n<!-- Block-End: \x7b\"name\": \"abc123\"\x7d -->\n\n\x23\x23 单行命令标记\n1. 每次输出中只能包含 **一个** \x60Cmd-Exec\x60 标记，用于执行可执行代码块来完成用户的任务：\n   - 格式：<!-- Cmd-Exec: \x7b\"name\": \"要执行的代码块 name\"\x7d -->\n   - 如果不需要执行任何代码，则不要添加 \x60Cmd-Exec\x60。\n   - 要执行的代码块必需先使用前述多行代码块标记格式单独定义。\n   - 如果代码块有多个版本，执行代码块的最新版本。\n   - 可以使用 \x60Cmd-Exec\x60 执行会话历史中的所有代码块。特别地，如果需要重复执行某个任务，尽量使用 \x60Cmd-Exec\x60 执行而不是重复输出代码块。\n\n2. Cmd-Exec 只能用来执行 Python 代码块，不能执行其它语言(如 JSON/CSS/JavaScript等)的代码块。\n\n3. **正确示例：**\n<!-- Cmd-Exec: \x7b\"name\": \"abc123\"\x7d -->\n\n\x23\x23 其它   \n1. 所有 JSON 内容必须写成**单行紧凑格式**，例如：\n   <!-- Block-Start: \x7b\"name\": \"abc123\", \"path\": \"main.py\", \"version\": 1\x7d -->\n\n2. 禁止输出代码内容重复的代码块，通过代码块name来引用之前定义过的代码块。\n\n遵循上述规则，生成输出内容。\n\n\x23 生成Python代码规则\n- 确保代码在下述\x60Python运行环境描述\x60中描述的运行环境中可以无需修改直接执行\n- 实现适当的错误处理，包括但不限于：\n  * 文件操作的异常处理\n  * 网络请求的超时和连接错误处理\n  * 数据处理过程中的类型错误和值错误处理\n- 如果需要区分正常和错误信息，可以把错误信息输出到 stderr。\n- 不允许执行可能导致 Python 解释器退出的指令，如 exit/quit 等函数，请确保代码中不包含这类操作。\n\n\x23 Python运行环境描述\n在标准 Python 运行环境的基础上额外增加了下述功能：\n- 一些预装的第三方包\n- 全局 \x60runtime\x60 对象\n- \x60set_state\x60 函数：设置当前代码块的执行结果状态，或保存数据到会话中。\n- \x60get_persistent_state\x60 函数：获取会话中持久化的状态值。\n\n生成 Python 代码时可以直接使用这些额外功能。\n\n\x23\x23 \x60set_result\x60 函数\n- 定义: \x60set_result(**kwargs)\x60\n- 参数: \n  - **kwargs: 状态键值对，类型可以为任意Python基本数据类型，如字符串/数字/列表/字典等。\n- 用途: 设置当前代码块的运行结果值，作为当前代码块的执行结果反馈。\n- 使用示例：\n\x60\x60\x60python\nset_result(success=False, reason=\"Error: 发生了错误\") \x23 设置当前代码块的执行结果状态\nset_result(success=True, data=\x7b\"name\": \"John\", \"age\": 30\x7d) \x23 设置当前代码块的执行结果状态\n\x60\x60\x60\n\n\x23\x23 \x60set_persistent_state\x60 函数\n- 定义: \x60set_persistent_state(**kwargs)\x60\n- 参数: \n  - **kwargs: 状态键值对，类型可以为任意Python基本数据类型，如字符串/数字/列表/字典等。\n- 用途: 设置会话中持久化的状态值。\n- 使用示例：\n\x60\x60\x60python\nset_persistent_state(data=\x7b\"name\": \"John\", \"age\": 30\x7d) \x23 保存数据到会话中\n\x60\x60\x60\n\n\x23\x23 \x60get_persistent_state\x60 函数\n- 类型: 函数。\n- 参数: \n  - key: 状态键名\n- 用途: 获取会话中持久化的状态值。不存在时返回 None。\n- 使用示例：\n\x60\x60\x60python\ndata = get_persistent_state(\"data\")\n\x60\x60\x60\n\n\x23\x23 预装的第三方包\n下述第三方包可以无需安装直接使用：\n- \x60requests\x60、\x60numpy\x60、\x60pandas\x60、\x60matplotlib\x60、\x60seaborn\x60、\x60bs4\x60。\n\n其它第三方包，都必需通过下述 runtime 对象的 install_packages 方法申请安装才能使用。\n\n在使用 matplotlib 时，需要根据系统类型选择和设置合适的中文字体，否则图片里中文会乱码导致无法完成客户任务。\n示例代码如下：\n\x60\x60\x60python\nimport platform\n\nsystem = platform.system().lower()\nfont_options = \x7b\n    \x27windows\x27: [\x27Microsoft YaHei\x27, \x27SimHei\x27],\n    \x27darwin\x27: [\x27Kai\x27, \x27Hei\x27],\n    \x27linux\x27: [\x27Noto Sans CJK SC\x27, \x27WenQuanYi Micro Hei\x27, \x27Source Han Sans SC\x27]\n\x7d\n\x60\x60\x60\n\n\x23\x23 全局 runtime 对象\nruntime 对象提供一些协助代码完成任务的方法。\n\n\x23\x23\x23 \x60runtime.get_block_by_name\x60 方法\n- 功能: 获取指定 name 的最新版本的代码块对象\n- 定义: \x60get_block_by_name(code_block_name)\x60\n- 参数: \x60code_block_name\x60 为代码块的名称\n- 返回值: 代码块对象，如果不存在则返回 None。\n\n返回的代码块对象包含以下属性：\n- \x60name\x60: 代码块名称\n- \x60version\x60: 代码块的版本号\n- \x60lang\x60: 代码块的编程语言\n- \x60code\x60: 代码块的代码内容\n- \x60path\x60: 代码块的文件路径（如果之前未指定则为None）\n\n可以修改代码块的 \x60code\x60 属性来更新代码内容。\n\n\x23\x23\x23 runtime.install_packages 方法\n- 功能: 申请安装完成任务必需的额外模块\n- 参数: 一个或多个 PyPi 包名，如：\x27httpx\x27, \x27requests>=2.25\x27\n- 返回值:True 表示成功, False 表示失败\n\n示例如下：\n\x60\x60\x60python\nif runtime.install_packages(\x27httpx\x27, \x27requests>=2.25\x27):\n    import httpx\n\x60\x60\x60\n\n\x23\x23\x23 runtime.get_env 方法\n- 功能: 获取代码运行需要的环境变量，如 API-KEY 等。\n- 定义: get_env(name, default=None, *, desc=None)\n- 参数: 第一个参数为需要获取的环境变量名称，第二个参数为不存在时的默认返回值，第三个可选字符串参数简要描述需要的是什么。\n- 返回值: 环境变量值，返回 None 或空字符串表示未找到。\n\n示例如下：\n\x60\x60\x60python\nenv_name = \x27环境变量名称\x27\nenv_value = runtime.get_env(env_name, \"No env\", desc=\x27访问API服务需要\x27)\nif not env_value:\n    print(f\"Error: \x7benv_name\x7d is not set\", file=sys.stderr)\nelse:\n    print(f\"\x7benv_name\x7d is available\")\n\x60\x60\x60\n\n\x23\x23\x23 runtime.display 方法\n- 功能: 显示图片\n- 定义: display(path=\"path/to/image.jpg\", url=\"https://www.example.com/image.png\")\n- 参数: \n  - path: 图片文件路径\n  - url: 图片 URL\n- 返回值: 无\n\n示例：\n\x60\x60\x60python\nruntime.display(path=\"path/to/image.png\")\nruntime.display(url=\"https://www.example.com/image.png\")\n\x60\x60\x60\n\n\x23 代码执行结果反馈\nPython代码块的执行结果会通过JSON对象反馈给你，对象包括以下属性：\n- \x60stdout\x60: 标准输出内容\n- \x60stderr\x60: 标准错误输出\n- \x60result\x60: 前述\x60set_result\x60 函数设置的当前代码块执行结果\n- \x60errstr\x60: 异常信息\n- \x60traceback\x60: 异常堆栈信息\n- \x60block_name\x60: 执行的代码块名称\n\n注意：\n- 如果某个属性为空，它不会出现在反馈中。\n\n收到反馈后，结合代码和反馈数据，做出下一步的决策。\n"

/-- Prefix of TIPS_PROMPT, the part before the tips placeholder. -/
def TIPS_PROMPT_pre : String :=
  "\n\x23 知识点/最佳实践\n"

/-- Prefix of API_PROMPT, the part before the apis placeholder. -/
def API_PROMPT_pre : String :=
  "\n\x23 一些 API 信息\n下面是用户提供的一些 API 信息，可能有 API_KEY，URL，用途和使用方法等信息。\n这些可能对特定任务有用途，你可以根据任务选择性使用。\n\n注意：\n1. 这些 API 信息里描述的环境变量必须用 runtime.get_env 方法获取，绝对不能使用 os.getenv 方法。\n2. API获取数据失败时，请输出完整的API响应信息，方便调试和分析问题。\n\n"


/-- Embedding of `TIPS_PROMPT.format(tips=...)`. -/
def TIPS_PROMPT_format (tips : String) : String :=
  TIPS_PROMPT_pre ++ tips ++ "\n"

/-- Embedding of `API_PROMPT.format(apis=...)`. -/
def API_PROMPT_format (apis : String) : String :=
  API_PROMPT_pre ++ apis ++ "\n"

/-- Embedding of `SYSTEM_PROMPT_TEMPLATE.format(**prompts)`: the four
section placeholders are separated and surrounded by newlines. -/
def SYSTEM_PROMPT_TEMPLATE_format (role_prompt aipy_prompt tips_prompt api_prompt : String) : String :=
  "\n" ++ role_prompt ++ "\n" ++ aipy_prompt ++ "\n" ++ tips_prompt ++ "\n" ++ api_prompt ++ "\n"

/-- The four-entry `prompts` dictionary built inside `get_system_prompt`,
as a record with the same field names. -/
structure SystemPromptParts where
  role_prompt : String
  aipy_prompt : String
  tips_prompt : String
  api_prompt : String

/-- Embedding of the body of `get_system_prompt` up to the final
template formatting: trim a truthy `user_prompt`, pick the role section
by `user_prompt or tips.role.detail`, and render the tips section only
when `user_prompt` is falsy and the tips collection is non-empty. -/
def get_system_prompt_parts (tips : Tips) (api_prompt : String) (user_prompt : Option String) : SystemPromptParts :=
  let user_prompt := if pyTruthyOpt user_prompt then user_prompt.map pyStrip else user_prompt
  SystemPromptParts.mk
    (pyOrElse user_prompt tips.role_detail)
    AIPY_PROMPT
    (if !(pyTruthyOpt user_prompt) && decide (0 < tips.length)
     then TIPS_PROMPT_format tips.str else "")
    (API_PROMPT_format api_prompt)

/-- Embedding of `get_system_prompt`. -/
def get_system_prompt (tips : Tips) (api_prompt : String) (user_prompt : Option String) : String :=
  let p := get_system_prompt_parts tips api_prompt user_prompt
  SYSTEM_PROMPT_TEMPLATE_format p.role_prompt p.aipy_prompt p.tips_prompt p.api_prompt

/-- Ambient system information read by `get_task_prompt` via `platform`,
`locale` and `date`; passed explicitly here.  `os_locale` is the tuple
returned by `locale.getlocale()`, kept opaque. -/
structure SysInfo where
  os_type : String
  os_locale : Value
  os_platform : String
  python_version : String
  today : String

/-- The `context` ordered dictionary built inside `get_task_prompt`:
five fixed entries, plus `TERM` and `LC_TERMINAL` from the environment
(default "unknown") when `gui` is false. -/
def get_task_context (info : SysInfo) (gui : Bool) (env : List (String × String)) : List (String × Value) :=
  [("os_type", Value.str info.os_type),
   ("os_locale", info.os_locale),
   ("os_platform", Value.str info.os_platform),
   ("python_version", Value.str info.python_version),
   ("today", Value.str info.today)] ++
  (if gui then [] else
    [("TERM", Value.str (pyEnvGet env "TERM" "unknown")),
     ("LC_TERMINAL", Value.str (pyEnvGet env "LC_TERMINAL" "unknown"))])

/-- The `reply_language` constraint string of `get_task_prompt`. -/
def task_reply_language : String :=
  "Now, use the exact language of the \x60task\x60 field for subsequent responses"

/-- The `matplotlib` constraint string added in GUI mode. -/
def matplotlib_constraint : String :=
  "DO NOT use plt.show to display picture because I\x27m using the Agg backend. Save pictures with plt.savefig() and display them with runtime.display()."

/-- The `constraints` ordered dictionary built inside `get_task_prompt`:
two fixed entries, plus the `matplotlib` entry when `gui` is true. -/
def get_task_constraints (gui : Bool) : List (String × Value) :=
  [("reply_language", Value.str task_reply_language),
   ("file_creation_path", Value.str "current_directory")] ++
  (if gui then [("matplotlib", Value.str matplotlib_constraint)] else [])

/-- Embedding of `get_task_prompt`. -/
def get_task_prompt (instruction : String) (gui : Bool) (info : SysInfo) (env : List (String × String)) : List (String × Value) :=
  [("task", Value.str instruction),
   ("source", Value.str "User"),
   ("context", Value.dict (get_task_context info gui env)),
   ("constraints", Value.dict (get_task_constraints gui))]

/-- The fixed `message` entry of `get_results_prompt`. -/
def results_message : String :=
  "These are the execution results of the code block/s automatically returned in the order of execution by the runtime environment."

/-- Embedding of `get_results_prompt`. -/
def get_results_prompt (results : List Value) : List (String × Value) :=
  [("message", Value.str results_message),
   ("source", Value.str "Runtime Environment"),
   ("results", Value.list results)]

/-- The `reply_language` constraint string of `get_chat_prompt`. -/
def chat_reply_language : String :=
  "Now, use the exact language of the \x60message\x60 field for subsequent responses"

/-- Embedding of `get_chat_prompt`. -/
def get_chat_prompt (msg : String) (task : String) : List (String × Value) :=
  [("message", Value.str msg),
   ("source", Value.str "User"),
   ("context", Value.dict [("initial_task", Value.str task)]),
   ("constraints", Value.dict [("reply_language", Value.str chat_reply_language)])]

/-- Embedding of `get_mcp_result_prompt`. -/
def get_mcp_result_prompt (result : Value) : List (String × Value) :=
  [("message", Value.str "The following is the result of the MCP tool call"),
   ("source", Value.str "MCP Tool"),
   ("result", result)]


/-- Claim C1 (counterexample): the claim "for every non-empty userPrompt,
the role section equals the trimmed userPrompt and the tips section is
empty for every tips collection" fails at the non-empty, whitespace-only
user prompt " " with a one-element tips collection: the role section is
the tips role detail and the tips section is rendered. -/
theorem claim_C1_counterexample :
    (" " ≠ "") ∧
    ¬ ((get_system_prompt_parts (Tips.mk "ROLE" 1 "TIP") "" (some " ")).role_prompt = pyStrip " " ∧
       (get_system_prompt_parts (Tips.mk "ROLE" 1 "TIP") "" (some " ")).tips_prompt = "") := by
  decide

/-- Claim C1 (amended): for every userPrompt that is non-empty after
trimming, the role section of the system prompt equals the trimmed
userPrompt and the tips section is empty, for every tips collection. -/
theorem claim_C1_theorem (tips : Tips) (api up : String) (h : pyStrip up ≠ "") :
    (get_system_prompt_parts tips api (some up)).role_prompt = pyStrip up ∧
    (get_system_prompt_parts tips api (some up)).tips_prompt = "" := by
  have hup : up ≠ "" := by
    intro he
    exact h (by rw [he]; rfl)
  have h1 : pyTruthyOpt (some up) = true := by
    simp [pyTruthyOpt, hup]
  have h2 : pyTruthyOpt (some (pyStrip up)) = true := by
    simp [pyTruthyOpt, h]
  simp [get_system_prompt_parts, h1, h2, pyOrElse, h, Option.map]

/-- Claim C1 witness: the amended claim instantiated at the prompt
" hi " with a concrete tips collection. -/
theorem claim_C1_witness :
    pyStrip " hi " ≠ "" ∧
    ((get_system_prompt_parts (Tips.mk "R" 3 "TT") "A" (some " hi ")).role_prompt = pyStrip " hi " ∧
     (get_system_prompt_parts (Tips.mk "R" 3 "TT") "A" (some " hi ")).tips_prompt = "") :=
  ⟨by decide, claim_C1_theorem (Tips.mk "R" 3 "TT") "A" " hi " (by decide)⟩

/-- Claim C2: for an absent (none) or empty userPrompt, the role section
equals the tips role detail; the tips section is empty when the tips
collection is empty, and is the rendered tips template when it is
non-empty. -/
theorem claim_C2_theorem (tips : Tips) (api : String) (up : Option String)
    (h : up = none ∨ up = some "") :
    (get_system_prompt_parts tips api up).role_prompt = tips.role_detail ∧
    (tips.length = 0 → (get_system_prompt_parts tips api up).tips_prompt = "") ∧
    (0 < tips.length →
      (get_system_prompt_parts tips api up).tips_prompt = TIPS_PROMPT_format tips.str) := by
  rcases h with rfl | rfl <;>
    refine ⟨by simp [get_system_prompt_parts, pyTruthyOpt, pyOrElse], ?_, ?_⟩ <;>
    intro h0 <;>
    simp [get_system_prompt_parts, pyTruthyOpt, h0]

/-- Claim C2 witness: the claim instantiated at an absent userPrompt and
an empty tips collection. -/
theorem claim_C2_witness :
    ((none : Option String) = none ∨ (none : Option String) = some "") ∧
    (get_system_prompt_parts (Tips.mk "R" 0 "TT") "A" none).role_prompt = "R" ∧
    (get_system_prompt_parts (Tips.mk "R" 0 "TT") "A" none).tips_prompt = "" :=
  ⟨Or.inl rfl,
   (claim_C2_theorem (Tips.mk "R" 0 "TT") "A" none (Or.inl rfl)).1,
   (claim_C2_theorem (Tips.mk "R" 0 "TT") "A" none (Or.inl rfl)).2.1 rfl⟩

/-- Claim C3: with gui off, the context record of the task prompt has
exactly the keys os_type, os_locale, os_platform, python_version, today,
TERM, LC_TERMINAL in that insertion order; TERM and LC_TERMINAL are read
from the environment and default to "unknown" when absent. -/
theorem claim_C3_theorem (instruction : String) (info : SysInfo) (env : List (String × String)) :
    pyDictGet (get_task_prompt instruction false info env) "context"
      = some (Value.dict (get_task_context info false env)) ∧
    (get_task_context info false env).map Prod.fst
      = ["os_type", "os_locale", "os_platform", "python_version", "today", "TERM", "LC_TERMINAL"] ∧
    pyDictGet (get_task_context info false env) "TERM"
      = some (Value.str (pyEnvGet env "TERM" "unknown")) ∧
    pyDictGet (get_task_context info false env) "LC_TERMINAL"
      = some (Value.str (pyEnvGet env "LC_TERMINAL" "unknown")) ∧
    (env.find? (fun p => p.fst == "TERM") = none → pyEnvGet env "TERM" "unknown" = "unknown") ∧
    (env.find? (fun p => p.fst == "LC_TERMINAL") = none → pyEnvGet env "LC_TERMINAL" "unknown" = "unknown") := by
  refine ⟨rfl, rfl, rfl, rfl, ?_, ?_⟩ <;>
    intro h <;>
    simp [pyEnvGet, h]

/-- Claim C3 witness: in an empty environment the TERM entry of the
context record is the literal "unknown". -/
theorem claim_C3_witness :
    (([] : List (String × String)).find? (fun p => p.fst == "TERM") = none) ∧
    pyDictGet (get_task_context (SysInfo.mk "Linux" (Value.str "C") "x86" "3.12" "2026-10-12") false []) "TERM"
      = some (Value.str "unknown") := by
  refine ⟨rfl, ?_⟩
  have h := claim_C3_theorem "t" (SysInfo.mk "Linux" (Value.str "C") "x86" "3.12" "2026-10-12") []
  rw [h.2.2.1, h.2.2.2.2.1 rfl]

/-- Claim C4: with gui on, the context record contains neither TERM nor
LC_TERMINAL and the constraints record contains a matplotlib key; with
gui off the constraints record contains no matplotlib key. -/
theorem claim_C4_theorem (instruction : String) (info : SysInfo) (env : List (String × String)) :
    pyDictGet (get_task_prompt instruction true info env) "context"
      = some (Value.dict (get_task_context info true env)) ∧
    pyDictGet (get_task_prompt instruction true info env) "constraints"
      = some (Value.dict (get_task_constraints true)) ∧
    pyDictGet (get_task_prompt instruction false info env) "constraints"
      = some (Value.dict (get_task_constraints false)) ∧
    pyDictGet (get_task_context info true env) "TERM" = none ∧
    pyDictGet (get_task_context info true env) "LC_TERMINAL" = none ∧
    pyDictGet (get_task_constraints true) "matplotlib" = some (Value.str matplotlib_constraint) ∧
    pyDictGet (get_task_constraints false) "matplotlib" = none :=
  ⟨rfl, rfl, rfl, rfl, rfl, rfl, rfl⟩

/-- Claim C5: for every instruction and gui mode, the task prompt has
top-level keys task, source, context, constraints in that order, its
task entry is the instruction, its source is "User", and its constraints
contain reply_language (which references the word "task") and
file_creation_path = "current_directory". -/
theorem claim_C5_theorem (instruction : String) (gui : Bool) (info : SysInfo) (env : List (String × String)) :
    (get_task_prompt instruction gui info env).map Prod.fst = ["task", "source", "context", "constraints"] ∧
    pyDictGet (get_task_prompt instruction gui info env) "task" = some (Value.str instruction) ∧
    pyDictGet (get_task_prompt instruction gui info env) "source" = some (Value.str "User") ∧
    pyDictGet (get_task_constraints gui) "reply_language" = some (Value.str task_reply_language) ∧
    (∃ pre post, task_reply_language = pre ++ "task" ++ post) ∧
    pyDictGet (get_task_constraints gui) "file_creation_path" = some (Value.str "current_directory") := by
  cases gui <;>
    exact ⟨rfl, rfl, rfl, rfl,
      ⟨"Now, use the exact language of the \x60", "\x60 field for subsequent responses", by decide⟩,
      rfl⟩

/-- Claim C6: the results prompt has exactly the keys message, source,
results in that order, its source entry is "Runtime Environment", and
its results entry is the input sequence unchanged (order preserved),
in particular on the two-element round trip. -/
theorem claim_C6_theorem (results : List Value) :
    (get_results_prompt results).map Prod.fst = ["message", "source", "results"] ∧
    pyDictGet (get_results_prompt results) "source" = some (Value.str "Runtime Environment") ∧
    pyDictGet (get_results_prompt results) "results" = some (Value.list results) ∧
    ∀ r1 r2 : Value, pyDictGet (get_results_prompt [r1, r2]) "results" = some (Value.list [r1, r2]) :=
  ⟨rfl, rfl, rfl, fun _ _ => rfl⟩

/-- Claim C7: for all strings msg and task (empty or containing
template-marker-like text), the chat prompt is exactly the four-entry
record with message = msg, source = "User", and context holding
initial_task = task; the record structure is never corrupted. -/
theorem claim_C7_theorem (msg task : String) :
    get_chat_prompt msg task =
      [("message", Value.str msg), ("source", Value.str "User"),
       ("context", Value.dict [("initial_task", Value.str task)]),
       ("constraints", Value.dict [("reply_language", Value.str chat_reply_language)])] ∧
    pyDictGet (get_chat_prompt msg task) "message" = some (Value.str msg) ∧
    pyDictGet (get_chat_prompt msg task) "source" = some (Value.str "User") ∧
    (∃ ctx, pyDictGet (get_chat_prompt msg task) "context" = some (Value.dict ctx) ∧
        pyDictGet ctx "initial_task" = some (Value.str task)) :=
  ⟨rfl, rfl, rfl, ⟨[("initial_task", Value.str task)], rfl, rfl⟩⟩

/-- Claim C8: for every apiInfo string, the api section of the system
prompt equals the fixed API template with apiInfo substituted, and
apiInfo appears verbatim as a contiguous substring of the full returned
prompt, independently of userPrompt and tips. -/
theorem claim_C8_theorem (tips : Tips) (api_info : String) (up : Option String) :
    (get_system_prompt_parts tips api_info up).api_prompt = API_PROMPT_format api_info ∧
    ∃ pre post, get_system_prompt tips api_info up = pre ++ api_info ++ post := by
  constructor
  · rfl
  · refine ⟨"\n" ++ (get_system_prompt_parts tips api_info up).role_prompt ++ "\n" ++
      AIPY_PROMPT ++ "\n" ++ (get_system_prompt_parts tips api_info up).tips_prompt ++
      "\n" ++ API_PROMPT_pre, "\n" ++ "\n", ?_⟩
    simp [get_system_prompt, get_system_prompt_parts, SYSTEM_PROMPT_TEMPLATE_format,
      API_PROMPT_format, String.append_assoc]

/-- Claim C9: each of the five builders is a total function returning a
value on every input of its documented domain; absent optional inputs
are handled by defined defaults: an absent userPrompt falls back to the
tips role detail, an empty tips collection yields an empty tips section,
and absent TERM and LC_TERMINAL variables default to "unknown". -/
theorem claim_C9_theorem (tips : Tips) (api instruction msg task rd sr : String)
    (up : Option String) (gui : Bool) (info : SysInfo) (env : List (String × String))
    (results : List Value) (result : Value) :
    (∃ s, get_system_prompt tips api up = s) ∧
    (∃ p, get_task_prompt instruction gui info env = p) ∧
    (∃ p, get_results_prompt results = p) ∧
    (∃ p, get_chat_prompt msg task = p) ∧
    (∃ p, get_mcp_result_prompt result = p) ∧
    (get_system_prompt_parts tips api none).role_prompt = tips.role_detail ∧
    (get_system_prompt_parts (Tips.mk rd 0 sr) api up).tips_prompt = "" ∧
    pyDictGet (get_task_context info false []) "TERM" = some (Value.str "unknown") ∧
    pyDictGet (get_task_context info false []) "LC_TERMINAL" = some (Value.str "unknown") := by
  refine ⟨⟨_, rfl⟩, ⟨_, rfl⟩, ⟨_, rfl⟩, ⟨_, rfl⟩, ⟨_, rfl⟩, rfl, ?_, rfl, rfl⟩
  simp [get_system_prompt_parts]

/-- Claim C10: a userPrompt that is non-empty but whitespace-only is
treated as if no userPrompt had been supplied: the role section is the
tips role detail, and the tips section is the rendered tips template
whenever the tips collection is non-empty. -/
theorem claim_C10_theorem (tips : Tips) (api up_s : String) (h1 : up_s ≠ "") (h2 : pyStrip up_s = "") :
    (get_system_prompt_parts tips api (some up_s)).role_prompt = tips.role_detail ∧
    (0 < tips.length →
      (get_system_prompt_parts tips api (some up_s)).tips_prompt = TIPS_PROMPT_format tips.str) := by
  have ht : pyTruthyOpt (some up_s) = true := by
    simp [pyTruthyOpt, h1]
  have hf : pyTruthyOpt (some (pyStrip up_s)) = false := by
    simp [pyTruthyOpt, h2]
  constructor
  · simp [get_system_prompt_parts, ht, pyOrElse, h2, Option.map]
  · intro hl
    have hd : decide (0 < tips.length) = true := decide_eq_true hl
    simp [get_system_prompt_parts, ht, hf, hd, Option.map]

/-- Claim C10 witness: the claim instantiated at the whitespace-only
prompt " " with a non-empty concrete tips collection. -/
theorem claim_C10_witness :
    (" " ≠ "") ∧ pyStrip " " = "" ∧
    (get_system_prompt_parts (Tips.mk "R" 2 "TT") "A" (some " ")).role_prompt = "R" ∧
    (get_system_prompt_parts (Tips.mk "R" 2 "TT") "A" (some " ")).tips_prompt = TIPS_PROMPT_format "TT" :=
  ⟨by decide, rfl,
   (claim_C10_theorem (Tips.mk "R" 2 "TT") "A" " " (by decide) rfl).1,
   (claim_C10_theorem (Tips.mk "R" 2 "TT") "A" " " (by decide) rfl).2 (by decide)⟩

end Aipy
